import Mathlib

/-!
Verification of the scene model and interaction engine of the Pastel Design
Studio (src/script.js) against its natural-language specification.

The JavaScript state (`appState`) and its mutation functions are embedded
shallowly: every mutation becomes a pure function `AppState K → ... → AppState K`
(or an `Option`-valued one where the JavaScript would throw a `TypeError`).
Numbers are modelled by an arbitrary linear ordered field `K`; the purely
arithmetic operations are instantiated at `ℚ` for concrete evaluation, while
the trigonometric handlers (`handleResize`, `handleRotate`) are defined over
`ℝ`, with `Math.atan2` modelled exactly by a case-split real `atan2`.

Identifiers: the source allocates ids as the string `'el_' + Date.now()`; the
impure clock is modelled by passing the fresh id (a `Nat`) as an argument.
-/

namespace Studio

-- CONFIG object, src/script.js:11-19.
namespace CONFIG

def CANVAS_WIDTH : ℕ := 800

def CANVAS_HEIGHT : ℕ := 600

def DEFAULT_COLOR : String := "#FFB7B2"

def DEFAULT_RECT_W : ℕ := 150

def DEFAULT_RECT_H : ℕ := 100

def DEFAULT_TEXT : String := "Hello World"

def MIN_SIZE : ℕ := 20

end CONFIG

/-- The `activeTool` values `'select' | 'rectangle' | 'text'` (src/script.js:25).
The element `type` field holds the tool it was created with (`'rectangle'` or
`'text'` at every call site). -/
inductive Tool
  | select
  | rectangle
  | text
deriving DecidableEq

/-- One element record as built by `createElement` (src/script.js:81-94). -/
structure Element (K : Type) where
  id : Nat
  type : Tool
  x : K
  y : K
  width : K
  height : K
  rotation : K
  backgroundColor : String
  content : String
  zIndex : Int
  fontSize : K
  color : String
deriving DecidableEq

/-- A partial-field update object as passed to `updateElement(id, updates)`:
`Object.assign` merges exactly the present fields. Only fields some caller in
src/script.js actually updates are included (`fontSize` is never updated). -/
structure Updates (K : Type) where
  x : Option K := none
  y : Option K := none
  width : Option K := none
  height : Option K := none
  rotation : Option K := none
  backgroundColor : Option String := none
  content : Option String := none
  color : Option String := none
deriving DecidableEq

/-- The `dragStart` screen point (src/script.js:34). -/
structure Pt (K : Type) where
  x : K
  y : K
deriving DecidableEq

/-- The mutable application state `appState` (src/script.js:22-37), restricted
to the model fields (the DOM cache is rendering-only). `resizeHandle` and
`initialElProps` start as `null`, modelled by `Option`. -/
structure AppState (K : Type) where
  elements : List (Element K)
  selectedId : Option Nat
  activeTool : Tool
  isDragging : Bool
  isResizing : Bool
  isRotating : Bool
  dragStart : Pt K
  resizeHandle : Option String
  initialElProps : Option (Element K)
deriving DecidableEq

/-- The initial `appState` literal (src/script.js:22-37). -/
def initialState (K : Type) [LinearOrderedField K] : AppState K :=
  { elements := [], selectedId := none, activeTool := .select,
    isDragging := false, isResizing := false, isRotating := false,
    dragStart := ⟨0, 0⟩, resizeHandle := none, initialElProps := none }

/-- JavaScript `String.prototype.includes` specialised to a single-character
needle, as used in `appState.resizeHandle.includes('e')` (src/script.js:511-514). -/
def strIncludes (s : String) (c : Char) : Bool :=
  s.data.contains c

/-- `Object.assign(el, updates)` (src/script.js:105): each field present in the
update overwrites the element's field, absent fields are kept. No clamping or
wrapping happens here. -/
def applyUpdates {K : Type} (el : Element K) (u : Updates K) : Element K :=
  { el with
    x := u.x.getD el.x
    y := u.y.getD el.y
    width := u.width.getD el.width
    height := u.height.getD el.height
    rotation := u.rotation.getD el.rotation
    backgroundColor := u.backgroundColor.getD el.backgroundColor
    content := u.content.getD el.content
    color := u.color.getD el.color }

/-- Rewrites the first element satisfying `p` with `f`; the functional rendering
of `const el = list.find(...); Object.assign(el, ...)`, which mutates exactly
the first match in place and does nothing when there is no match. -/
def mapFirst {α : Type} (p : α → Bool) (f : α → α) : List α → List α
  | [] => []
  | a :: l => if p a then f a :: l else a :: mapFirst p f l

/-- `updateElement(id, updates)` (src/script.js:101-111): find the element by
id (no-op if absent) and merge the given fields into it. Rendering and the
properties-panel sync have no effect on the model state. -/
def updateElement {K : Type} (st : AppState K) (id : Nat) (u : Updates K) : AppState K :=
  { st with elements := mapFirst (fun e => e.id == id) (fun e => applyUpdates e u) st.elements }

/-- `selectElement(id)` (src/script.js:113-118): stores the given id
unconditionally (it is never checked against the element list). -/
def selectElement {K : Type} (st : AppState K) (id : Option Nat) : AppState K :=
  { st with selectedId := id }

/-- `deleteSelected()` (src/script.js:120-125): no-op without a selection;
otherwise removes every element whose id equals the selected id and clears the
selection. The surviving elements keep their `zIndex` values (no renumbering). -/
def deleteSelected {K : Type} (st : AppState K) : AppState K :=
  match st.selectedId with
  | none => st
  | some sid =>
    { st with elements := st.elements.filter (fun e => !(e.id == sid)), selectedId := none }

/-- `createElement(type, x, y)` (src/script.js:74-99). `newId` stands for the
impure `'el_' + Date.now()`. `x || 100` keeps a passed coordinate only when it
is truthy, i.e. a coordinate equal to `0` is replaced by the default `100`
(`NaN`, the other falsy number, has no counterpart in a field and is not
modelled). The new element is appended and then selected. -/
def createElement {K : Type} [LinearOrderedField K]
    (st : AppState K) (newId : Nat) (type : Tool) (x y : K) : AppState K :=
  let isText := type = Tool.text
  let newEl : Element K :=
    { id := newId
      type := type
      x := if x = 0 then 100 else x
      y := if y = 0 then 100 else y
      width := if isText then 200 else (CONFIG.DEFAULT_RECT_W : K)
      height := if isText then 60 else (CONFIG.DEFAULT_RECT_H : K)
      rotation := 0
      backgroundColor := if isText then "transparent" else CONFIG.DEFAULT_COLOR
      content := if isText then CONFIG.DEFAULT_TEXT else ""
      zIndex := (st.elements.length : Int) + 1
      fontSize := 16
      color := "#4A4A68" }
  selectElement { st with elements := st.elements ++ [newEl] } (some newId)

/-- `setTool(tool)` (src/script.js:341-350): only `activeTool` matters to the
model; the rest is cursor/toolbar styling. -/
def setTool {K : Type} (st : AppState K) (tool : Tool) : AppState K :=
  { st with activeTool := tool }

/-- The creation branch of `onCanvasMouseDown` (src/script.js:365-373), taken
when `activeTool !== 'select'`: the artboard-local coordinates are the client
coordinates minus the artboard origin, shifted by half a default rectangle for
the rectangle tool (text anchors top-left), then `createElement` runs and the
tool resets to `'select'`. -/
def creationClick {K : Type} [LinearOrderedField K]
    (st : AppState K) (newId : Nat) (clientX clientY rectLeft rectTop : K) : AppState K :=
  let x := clientX - rectLeft - (if st.activeTool = Tool.text then 0 else (CONFIG.DEFAULT_RECT_W : K) / 2)
  let y := clientY - rectTop - (if st.activeTool = Tool.text then 0 else (CONFIG.DEFAULT_RECT_H : K) / 2)
  setTool (createElement st newId st.activeTool x y) Tool.select

/-- The numeric property fields wired in `setupEventListeners`
(src/script.js:295-310). -/
inductive PropKey
  | x
  | y
  | w
  | h
  | rot
deriving DecidableEq

/-- One `input` event on a numeric property field (src/script.js:296-310):
no-op without a selection; otherwise `val = parseInt(...)` (modelled as the
parsed integer; `NaN` from an empty field is not modelled) and the update is
built with `Math.max(MIN_SIZE, val)` for width/height and the JavaScript
remainder `val % 360` (sign of the dividend, `Int.tmod`) for rotation, before
`updateElement` merges it. -/
def propEdit {K : Type} [LinearOrderedField K]
    (st : AppState K) (key : PropKey) (val : Int) : AppState K :=
  match st.selectedId with
  | none => st
  | some sid =>
    let updates : Updates K :=
      match key with
      | .x => { x := some ((val : Int) : K) }
      | .y => { y := some ((val : Int) : K) }
      | .w => { width := some (max ((CONFIG.MIN_SIZE : ℕ) : K) ((val : Int) : K)) }
      | .h => { height := some (max ((CONFIG.MIN_SIZE : ℕ) : K) ((val : Int) : K)) }
      | .rot => { rotation := some ((Int.tmod val 360 : Int) : K) }
    updateElement st sid updates

/-- Arrow keys handled by `setupHotkeys` (src/script.js:556-566). -/
inductive ArrowKey
  | up
  | down
  | left
  | right
deriving DecidableEq

/-- The arrow branch of the `keydown` handler (src/script.js:544-567) for a
non-input event target: no-op without a selection; otherwise destructures
`{x, y}` from the selected element (a `TypeError`, modelled as `none`, if the
selected id is dangling), applies `step = 5` in the key's direction and stores
both coordinates through `updateElement`. -/
def keyArrow {K : Type} [LinearOrderedField K]
    (st : AppState K) (key : ArrowKey) : Option (AppState K) :=
  match st.selectedId with
  | none => some st
  | some sid =>
    match st.elements.find? (fun e => e.id == sid) with
    | none => none
    | some el =>
      let step : K := 5
      let moved : Pt K :=
        match key with
        | .up => ⟨el.x, el.y - step⟩
        | .down => ⟨el.x, el.y + step⟩
        | .left => ⟨el.x - step, el.y⟩
        | .right => ⟨el.x + step, el.y⟩
      some (updateElement st el.id { x := some moved.x, y := some moved.y })

/-- The in-place swap `[cur] ↔ [new]` of `moveLayer` (src/script.js:589-592);
identity when either index is out of range (the source checks the range first). -/
def swapAt {α : Type} (l : List α) (i j : Nat) : List α :=
  match l.get? i, l.get? j with
  | some a, some b => (l.set i b).set j a
  | _, _ => l

/-- The re-densification loop `elements.forEach((el, i) => el.zIndex = i + 1)`
(src/script.js:595), generalised over the starting index. -/
def renumber {K : Type} : List (Element K) → Int → List (Element K)
  | [], _ => []
  | e :: l, n => { e with zIndex := n } :: renumber l (n + 1)

/-- `moveLayer(dir)` (src/script.js:572-598): no-op without a selection or when
the selected id is absent; otherwise sorts the array in place by `zIndex`
(JavaScript `Array.prototype.sort` is stable, which `insertionSort` on `≤` of
the keys realises), computes the selected element's position, returns early —
with the array left sorted but the `zIndex` fields untouched — when the target
position is out of range, and otherwise swaps the two positions and renumbers
every `zIndex` densely to `1..N`. -/
def moveLayer {K : Type} [LinearOrderedField K] (st : AppState K) (dir : Int) : AppState K :=
  match st.selectedId with
  | none => st
  | some sid =>
    match st.elements.findIdx? (fun e => e.id == sid) with
    | none => st
    | some _ =>
      let sorted := st.elements.insertionSort (fun a b => a.zIndex ≤ b.zIndex)
      match sorted.findIdx? (fun e => e.id == sid) with
      | none => { st with elements := sorted }
      | some currentPos =>
        let newPos : Int := (currentPos : Int) + dir
        if newPos < 0 ∨ (sorted.length : Int) ≤ newPos then { st with elements := sorted }
        else { st with elements := renumber (swapAt sorted currentPos newPos.toNat) 1 }

/-- `startDrag(e, id)` (src/script.js:398-404): raises the dragging flag,
records the pointer origin and snapshots the target element (`{...el}`). -/
def startDrag {K : Type} (st : AppState K) (ex ey : K) (id : Nat) : AppState K :=
  { st with
    isDragging := true
    dragStart := ⟨ex, ey⟩
    initialElProps := st.elements.find? (fun e => e.id == id) }

/-- `startInteraction(e, handle)` (src/script.js:386-396): sets the resize or
rotate flag and the handle name first, and only records pointer origin and
snapshot when the selected element exists (the source returns early otherwise,
leaving any stale origin/snapshot in place). -/
def startInteraction {K : Type} (st : AppState K) (ex ey : K)
    (isResize isRotate : Bool) (handle : Option String) : AppState K :=
  let st1 := { st with isResizing := isResize, isRotating := isRotate, resizeHandle := handle }
  match st.selectedId with
  | none => st1
  | some sid =>
    match st1.elements.find? (fun e => e.id == sid) with
    | none => st1
    | some el => { st1 with dragStart := ⟨ex, ey⟩, initialElProps := some el }

/-- The integer interval `[start, start + n)` as a list, used to state the
z-index density invariant. -/
def rangeZ (start : Int) : Nat → List Int
  | 0 => []
  | n + 1 => start :: rangeZ (start + 1) n

/-- The z-index density invariant of the specification: the multiset of
`zIndex` values over all elements is exactly `{1..N}` for `N` the element
count. -/
def zDense {K : Type} (l : List (Element K)) : Prop :=
  List.Perm (l.map (fun e => e.zIndex)) (rangeZ 1 l.length)

instance {K : Type} (l : List (Element K)) : Decidable (zDense l) :=
  List.decidablePerm _ _

/-- ECMAScript `Math.atan2(y, x)` on finite inputs (there is no signed zero in
an ordered field, so the `-0` branches coincide with the `0` ones): the angle
of the point `(x, y)` in `(-π, π]`. -/
noncomputable def atan2 (y x : ℝ) : ℝ :=
  if 0 < x then Real.arctan (y / x)
  else if x < 0 ∧ 0 ≤ y then Real.arctan (y / x) + Real.pi
  else if x < 0 ∧ y < 0 then Real.arctan (y / x) - Real.pi
  else if 0 < y then Real.pi / 2
  else if y < 0 then -(Real.pi / 2)
  else 0

/-- The specification's geometry utility `rotateVector(dx, dy, degrees)`: the
screen delta rotated by `degrees` (clockwise-positive), exactly the expression
inlined at src/script.js:450-452 with `degrees = -el.rotation`. -/
noncomputable def rotateVector (dx dy degrees : ℝ) : ℝ × ℝ :=
  (dx * Real.cos (degrees * (Real.pi / 180)) - dy * Real.sin (degrees * (Real.pi / 180)),
   dx * Real.sin (degrees * (Real.pi / 180)) + dy * Real.cos (degrees * (Real.pi / 180)))

/-- `handleResize(e, el)` (src/script.js:427-520). The `switch` on `'se'`
(lines 476-504) computes only block-local values that are dead: `newW`/`newH`
are unconditionally recomputed by the `includes` cascade at lines 511-514, and
`newX`/`newY` are never written nor passed to `updateElement` — position is
not corrected. A `null` handle or snapshot would be a `TypeError` (`none`).
The merge stores `Math.max(MIN_SIZE, ·)` of both axes. -/
noncomputable def handleResize (st : AppState ℝ) (ex ey : ℝ) (el : Element ℝ) :
    Option (AppState ℝ) :=
  match st.resizeHandle, st.initialElProps with
  | some handle, some init =>
    let dx := ex - st.dragStart.x
    let dy := ey - st.dragStart.y
    let rad := -el.rotation * (Real.pi / 180)
    let localDx := dx * Real.cos rad - dy * Real.sin rad
    let localDy := dx * Real.sin rad + dy * Real.cos rad
    let newW1 := if strIncludes handle 'e' then init.width + localDx else init.width
    let newW := if strIncludes handle 'w' then init.width - localDx else newW1
    let newH1 := if strIncludes handle 's' then init.height + localDy else init.height
    let newH := if strIncludes handle 'n' then init.height - localDy else newH1
    some (updateElement st el.id
      { width := some (max ((CONFIG.MIN_SIZE : ℕ) : ℝ) newW)
        height := some (max ((CONFIG.MIN_SIZE : ℕ) : ℝ) newH) })
  | _, _ => none

/-- `handleRotate(e, el)` (src/script.js:522-533): the element center in screen
space from the artboard origin `(rectLeft, rectTop)`, then
`atan2 * 180/π + 90` stored directly as the rotation — there is no modulo or
normalisation anywhere on this path. -/
noncomputable def handleRotate (st : AppState ℝ) (rectLeft rectTop ex ey : ℝ)
    (el : Element ℝ) : AppState ℝ :=
  let cx := rectLeft + el.x + el.width / 2
  let cy := rectTop + el.y + el.height / 2
  let angleRad := atan2 (ey - cy) (ex - cx)
  let angleDeg := angleRad * (180 / Real.pi) + 90
  updateElement st el.id { rotation := some angleDeg }

/-- `onGlobalMouseMove(e)` (src/script.js:406-425): no-op without a selection;
with a dangling selected id the three active branches dereference `undefined`
(`TypeError`, modelled `none`); otherwise dragging recomputes the position from
`initialElProps` plus the delta from `dragStart`, and resizing/rotating defer
to their handlers. With no flag raised nothing happens. -/
noncomputable def onGlobalMouseMove (st : AppState ℝ) (rectLeft rectTop ex ey : ℝ) :
    Option (AppState ℝ) :=
  match st.selectedId with
  | none => some st
  | some sid =>
    match st.elements.find? (fun e => e.id == sid) with
    | none =>
      if st.isDragging || st.isResizing || st.isRotating then none else some st
    | some el =>
      if st.isDragging then
        match st.initialElProps with
        | none => none
        | some init =>
          let dx := ex - st.dragStart.x
          let dy := ey - st.dragStart.y
          some (updateElement st el.id { x := some (init.x + dx), y := some (init.y + dy) })
      else if st.isResizing then handleResize st ex ey el
      else if st.isRotating then some (handleRotate st rectLeft rectTop ex ey el)
      else some st

/-- The specification §8 scenario state: a rectangle created at (100,100), then
a second one; ids stand for the two `Date.now()` readings. -/
def twoRects : AppState ℚ :=
  createElement (createElement (initialState ℚ) 1 Tool.rectangle 100 100) 2 Tool.rectangle 150 150

/-- A reachable state with a z-index gap: a third rectangle added, the bottom
one (zIndex 1) selected and deleted, then the topmost (zIndex 3) selected. -/
def gapState : AppState ℚ :=
  selectElement (deleteSelected (selectElement (createElement twoRects 3 Tool.rectangle 200 200)
    (some 1))) (some 3)

/-- The first element of `twoRects` spelled out. -/
def twoRectsFst : Element ℚ :=
  { id := 1, type := .rectangle, x := 100, y := 100, width := 150, height := 100,
    rotation := 0, backgroundColor := "#FFB7B2", content := "", zIndex := 1,
    fontSize := 16, color := "#4A4A68" }

/-- The second element of `twoRects` spelled out. -/
def twoRectsSnd : Element ℚ :=
  { id := 2, type := .rectangle, x := 150, y := 150, width := 150, height := 100,
    rotation := 0, backgroundColor := "#FFB7B2", content := "", zIndex := 2,
    fontSize := 16, color := "#4A4A68" }

/-- A concrete rectangle for the real-valued gesture scenarios. -/
def elW : Element ℝ :=
  { id := 1, type := .rectangle, x := 100, y := 100, width := 150, height := 100,
    rotation := 0, backgroundColor := "#FFB7B2", content := "", zIndex := 1,
    fontSize := 16, color := "#4A4A68" }

/-- A state in the middle of a `Resizing("se")` session on `elW`, pointer origin
at the screen origin. -/
def stW : AppState ℝ :=
  { elements := [elW], selectedId := some 1, activeTool := .select,
    isDragging := false, isResizing := true, isRotating := false,
    dragStart := ⟨0, 0⟩, resizeHandle := some "se", initialElProps := some elW }

/-- A state in the middle of a `Dragging` session on `elW`, pointer origin at
the screen origin. -/
def stD : AppState ℝ :=
  { elements := [elW], selectedId := some 1, activeTool := .select,
    isDragging := true, isResizing := false, isRotating := false,
    dragStart := ⟨0, 0⟩, resizeHandle := none, initialElProps := some elW }

/-! Helper lemmas about the embedding. -/

theorem applyUpdates_id {K : Type} (el : Element K) (u : Updates K) :
    (applyUpdates el u).id = el.id := rfl

theorem mapFirst_eq_of_forall {α : Type} (p : α → Bool) (f : α → α) :
    ∀ l : List α, (∀ a ∈ l, p a = false) → mapFirst p f l = l := by
  intro l
  induction l with
  | nil => intro _; rfl
  | cons a t ih =>
    intro h
    have ha : p a = false := h a (List.mem_cons_self a t)
    simp only [mapFirst, ha, if_neg Bool.false_ne_true, List.cons.injEq, true_and]
    exact ih fun b hb => h b (List.mem_cons_of_mem a hb)

theorem find?_mapFirst {α : Type} (p : α → Bool) (f : α → α) (hp : ∀ a, p (f a) = p a) :
    ∀ l : List α, List.find? p (mapFirst p f l) = (List.find? p l).map f := by
  intro l
  induction l with
  | nil => rfl
  | cons a t ih =>
    cases ha : p a with
    | true =>
      have hfa : p (f a) = true := (hp a).trans ha
      simp [mapFirst, ha, List.find?_cons_of_pos, hfa]
    | false =>
      simp [mapFirst, ha, List.find?_cons_of_neg, ih]

theorem mapFirst_mapFirst {α : Type} (p : α → Bool) (f g : α → α)
    (hp : ∀ a, p (f a) = p a) (hfg : ∀ a, g (f a) = g a) :
    ∀ l : List α, mapFirst p g (mapFirst p f l) = mapFirst p g l := by
  intro l
  induction l with
  | nil => rfl
  | cons a t ih =>
    cases ha : p a with
    | true =>
      have hfa : p (f a) = true := (hp a).trans ha
      simp [mapFirst, ha, hfa, hfg a]
    | false =>
      simp [mapFirst, ha, ih]

theorem renumber_length {K : Type} :
    ∀ (l : List (Element K)) (n : Int), (renumber l n).length = l.length := by
  intro l
  induction l with
  | nil => intro n; rfl
  | cons e t ih => intro n; simp [renumber, ih]

theorem rangeZ_succ : ∀ (n : Nat) (s : Int), rangeZ s (n + 1) = rangeZ s n ++ [s + n] := by
  intro n
  induction n with
  | zero => intro s; simp [rangeZ]
  | succ m ih =>
    intro s
    have step : rangeZ s (m + 2) = s :: rangeZ (s + 1) (m + 1) := rfl
    rw [step, ih (s + 1)]
    have harith : s + 1 + (m : Int) = s + ((m : Int) + 1) := by ring
    simp [rangeZ, harith]

theorem renumber_map_zIndex {K : Type} :
    ∀ (l : List (Element K)) (n : Int),
      (renumber l n).map (fun e => e.zIndex) = rangeZ n l.length := by
  intro l
  induction l with
  | nil => intro n; rfl
  | cons e t ih => intro n; simp [renumber, rangeZ, ih]

theorem swapAt_length {α : Type} (l : List α) (i j : Nat) :
    (swapAt l i j).length = l.length := by
  unfold swapAt
  cases l.get? i <;> cases l.get? j <;> simp

theorem zDense_renumber_swap {K : Type} (l : List (Element K)) (i j : Nat) :
    zDense (renumber (swapAt l i j) 1) := by
  unfold zDense
  rw [renumber_map_zIndex, renumber_length]

theorem zDense_append_fresh {K : Type} (l : List (Element K)) (e : Element K)
    (he : e.zIndex = (l.length : Int) + 1) (h : zDense l) : zDense (l ++ [e]) := by
  unfold zDense at h ⊢
  simp only [List.map_append, List.length_append, List.map_cons, List.map_nil,
    List.length_cons, List.length_nil, Nat.add_zero]
  rw [rangeZ_succ]
  refine h.append ?_
  simp [he, add_comm]

theorem zDense_perm {K : Type} {l₁ l₂ : List (Element K)} (hperm : List.Perm l₁ l₂)
    (h : zDense l₁) : zDense l₂ := by
  unfold zDense at h ⊢
  rw [← hperm.length_eq]
  exact ((hperm.map (fun e => e.zIndex)).symm.trans h)

theorem zDense_moveLayer {K : Type} [LinearOrderedField K] (st : AppState K) (dir : Int)
    (h : zDense st.elements) : zDense (moveLayer st dir).elements := by
  have hperm := List.perm_insertionSort
    (fun a b : Element K => a.zIndex ≤ b.zIndex) st.elements
  cases hsel : st.selectedId with
  | none => simpa [moveLayer, hsel] using h
  | some sid =>
    cases hidx : st.elements.findIdx? (fun e => e.id == sid) with
    | none => simpa [moveLayer, hsel, hidx] using h
    | some idx =>
      cases hcur : (st.elements.insertionSort
          (fun a b => a.zIndex ≤ b.zIndex)).findIdx? (fun e => e.id == sid) with
      | none =>
        simp only [moveLayer, hsel, hidx, hcur]
        exact zDense_perm hperm.symm h
      | some currentPos =>
        simp only [moveLayer, hsel, hidx, hcur]
        split
        · exact zDense_perm hperm.symm h
        · exact zDense_renumber_swap _ _ _

theorem perm_cons_filter_of_unique {α : Type} (p : α → Bool) :
    ∀ (l : List α) (a : α), List.find? p l = some a → l.countP p = 1 →
      List.Perm l (a :: l.filter (fun x => !(p x))) := by
  intro l
  induction l with
  | nil => intro a hfind _; simp at hfind
  | cons b t ih =>
    intro a hfind hcount
    cases hb : p b with
    | true =>
      rw [List.find?_cons_of_pos _ hb] at hfind
      injection hfind with hba
      subst hba
      rw [List.countP_cons, if_pos hb] at hcount
      have ht : t.countP p = 0 := by omega
      have hall : ∀ x ∈ t, ¬ (p x = true) := List.countP_eq_zero.mp ht
      have hfil : t.filter (fun x => !(p x)) = t := by
        apply List.filter_eq_self.mpr
        intro x hx
        simp [hall x hx]
      simp [List.filter_cons, hb, hfil]
    | false =>
      rw [List.find?_cons_of_neg _ (by simp [hb])] at hfind
      rw [List.countP_cons, if_neg (by simp [hb])] at hcount
      have hstep := ih a hfind (by omega)
      have h1 : List.Perm (b :: t) (b :: (a :: t.filter (fun x => !(p x)))) := hstep.cons b
      have h2 : List.Perm (b :: a :: t.filter (fun x => !(p x)))
          (a :: b :: t.filter (fun x => !(p x))) := List.Perm.swap a b _
      have h3 : (b :: t).filter (fun x => !(p x)) = b :: t.filter (fun x => !(p x)) := by
        simp [List.filter_cons, hb]
      rw [h3]
      exact h1.trans h2

theorem tmod_neg_left (a b : Int) : (-a).tmod b = -(a.tmod b) := by
  rw [Int.tmod_def, Int.tmod_def, Int.neg_tdiv]
  ring

theorem find?_updateElement {K : Type} (st : AppState K) (id : Nat) (u : Updates K) :
    (updateElement st id u).elements.find? (fun e => e.id == id)
      = (st.elements.find? (fun e => e.id == id)).map (fun e => applyUpdates e u) :=
  find?_mapFirst (fun e => e.id == id) (fun e => applyUpdates e u) (fun _ => rfl) st.elements

theorem updateElement_selectedId {K : Type} (st : AppState K) (id : Nat) (u : Updates K) :
    (updateElement st id u).selectedId = st.selectedId := rfl

theorem updateElement_isDragging {K : Type} (st : AppState K) (id : Nat) (u : Updates K) :
    (updateElement st id u).isDragging = st.isDragging := rfl

theorem updateElement_isResizing {K : Type} (st : AppState K) (id : Nat) (u : Updates K) :
    (updateElement st id u).isResizing = st.isResizing := rfl

theorem updateElement_isRotating {K : Type} (st : AppState K) (id : Nat) (u : Updates K) :
    (updateElement st id u).isRotating = st.isRotating := rfl

theorem updateElement_initialElProps {K : Type} (st : AppState K) (id : Nat) (u : Updates K) :
    (updateElement st id u).initialElProps = st.initialElProps := rfl

theorem updateElement_dragStart {K : Type} (st : AppState K) (id : Nat) (u : Updates K) :
    (updateElement st id u).dragStart = st.dragStart := rfl

theorem find?_updateElement_of_find {K : Type} (st : AppState K) (sid : Nat) (el : Element K)
    (u : Updates K) (hid : el.id = sid)
    (hfind : st.elements.find? (fun e => e.id == sid) = some el) :
    (updateElement st el.id u).elements.find? (fun e => e.id == sid)
      = some (applyUpdates el u) := by
  have hp : (fun e : Element K => e.id == sid) = (fun e => e.id == el.id) := by rw [hid]
  rw [hp, find?_updateElement st el.id, ← hp, hfind]
  rfl

theorem updateElement_updateElement {K : Type} (st : AppState K) (id : Nat)
    (u₁ u₂ : Updates K)
    (hcollapse : ∀ a : Element K, applyUpdates (applyUpdates a u₁) u₂ = applyUpdates a u₂) :
    updateElement (updateElement st id u₁) id u₂ = updateElement st id u₂ := by
  show { st with elements := (mapFirst (fun e => e.id == id) (fun e => applyUpdates e u₂)
      (mapFirst (fun e => e.id == id) (fun e => applyUpdates e u₁) st.elements)) }
    = { st with
        elements := (mapFirst (fun e => e.id == id) (fun e => applyUpdates e u₂) st.elements) }
  rw [mapFirst_mapFirst (fun e => e.id == id) (fun e => applyUpdates e u₁)
    (fun e => applyUpdates e u₂) (fun a => rfl) hcollapse]

theorem resize_after_update (st : AppState ℝ) (el : Element ℝ) (w h ex ey : ℝ) :
    handleResize (updateElement st el.id { width := some w, height := some h }) ex ey
      (applyUpdates el { width := some w, height := some h })
    = handleResize st ex ey el := by
  have hh1 : (updateElement st el.id { width := some w, height := some h }).resizeHandle
      = st.resizeHandle := rfl
  have hi1 : (updateElement st el.id { width := some w, height := some h }).initialElProps
      = st.initialElProps := rfl
  cases hh : st.resizeHandle with
  | none =>
    cases hi : st.initialElProps with
    | none => unfold handleResize; rw [hh1, hi1, hh, hi]
    | some init => unfold handleResize; rw [hh1, hi1, hh, hi]
  | some handle =>
    cases hi : st.initialElProps with
    | none => unfold handleResize; rw [hh1, hi1, hh, hi]
    | some init =>
      unfold handleResize
      rw [hh1, hi1, hh, hi]
      exact congrArg some
        (updateElement_updateElement st el.id { width := some w, height := some h } _
          (fun a => rfl))

theorem rotate_after_update (st : AppState ℝ) (el : Element ℝ) (r rl rt ex ey : ℝ) :
    handleRotate (updateElement st el.id { rotation := some r }) rl rt ex ey
      (applyUpdates el { rotation := some r })
    = handleRotate st rl rt ex ey el :=
  updateElement_updateElement st el.id { rotation := some r } _ (fun _ => rfl)

/-! The claims. -/

/-- Claim C7 (amended): `updateElement` with an id absent from the scene leaves
the state entirely unchanged, but `selectElement` stores the given id
unconditionally, changing `selectedId` even when the id is absent. -/
theorem claim_C7 {K : Type} [LinearOrderedField K] (st : AppState K) (id : Nat)
    (u : Updates K) (oid : Option Nat) (habs : ∀ e ∈ st.elements, ¬ e.id = id) :
    updateElement st id u = st
    ∧ (selectElement st oid).selectedId = oid
    ∧ (selectElement st oid).elements = st.elements := by
  refine ⟨?_, rfl, rfl⟩
  unfold updateElement
  rw [mapFirst_eq_of_forall]
  intro a ha
  simp [habs a ha]

/-- Counterexample to claim C7 as stated: in the reachable one-rectangle scene,
selecting the absent id 99 changes `selectedId` from `some 1` to `some 99`, so
selection of an absent id is not a no-op on the scene state. -/
theorem claim_C7_cex :
    (∀ e ∈ (createElement (initialState ℚ) 1 Tool.rectangle 100 100).elements, ¬ e.id = 99)
    ∧ (createElement (initialState ℚ) 1 Tool.rectangle 100 100).selectedId = some 1
    ∧ (selectElement (createElement (initialState ℚ) 1 Tool.rectangle 100 100)
        (some 99)).selectedId = some 99 := by
  refine ⟨by decide, rfl, rfl⟩

/-- Witness for claim C7 at the concrete one-rectangle scene and absent id 99. -/
theorem claim_C7_witness :
    updateElement (createElement (initialState ℚ) 1 Tool.rectangle 100 100) 99 { x := some 5 }
      = createElement (initialState ℚ) 1 Tool.rectangle 100 100 :=
  (claim_C7 (createElement (initialState ℚ) 1 Tool.rectangle 100 100) 99 { x := some 5 }
    none (by decide)).1

/-- Claim C9: with a selected element, the up-arrow nudge decreases its `y` by
the configured step 5 and leaves `x` unchanged (the merged element is the old
one with only `y` replaced); with no selection any arrow key is a no-op. -/
theorem claim_C9 {K : Type} [LinearOrderedField K] (st : AppState K) (sid : Nat)
    (el : Element K) (hsel : st.selectedId = some sid)
    (hfind : st.elements.find? (fun e => e.id == sid) = some el) :
    (∃ st', keyArrow st ArrowKey.up = some st'
      ∧ st'.elements.find? (fun e => e.id == sid) = some { el with y := el.y - 5 }
      ∧ st'.selectedId = st.selectedId)
    ∧ (∀ (st₂ : AppState K) (k : ArrowKey), st₂.selectedId = none → keyArrow st₂ k = some st₂) := by
  have hid : el.id = sid := by simpa using List.find?_some hfind
  constructor
  · refine ⟨updateElement st el.id { x := some el.x, y := some (el.y - 5) }, ?_, ?_, rfl⟩
    · simp [keyArrow, hsel, hfind]
    · have hp : (fun e : Element K => e.id == sid) = (fun e => e.id == el.id) := by rw [hid]
      rw [hp, find?_updateElement st el.id, ← hp, hfind]
      rfl
  · intro st₂ k h₂
    simp [keyArrow, h₂]

/-- Witness for claim C9 on the two-rectangle scene (selected element 2 at
y = 100 moves to y = 95). -/
theorem claim_C9_witness :
    ∃ st', keyArrow twoRects ArrowKey.up = some st'
      ∧ st'.elements.find? (fun e => e.id == 2) =
          some { twoRectsSnd with y := twoRectsSnd.y - 5 }
      ∧ st'.selectedId = twoRects.selectedId := by
  exact (claim_C9 twoRects 2 twoRectsSnd rfl (by decide)).1

/-- Claim C2 (amended): `updateElement` itself performs a plain unvalidated
merge — the stored width/height/rotation are exactly the values given in the
update object — while the minimum-size clamp and the `% 360` wrap are enforced
by the callers before the merge: the numeric property-field handler builds its
update with `Math.max(MIN_SIZE, val)` and `val % 360`, and `handleResize`
clamps both axes to `MIN_SIZE` before calling `updateElement`. -/
theorem claim_C2 {K : Type} [LinearOrderedField K] :
    (∀ (el : Element K) (w h r : K),
      (applyUpdates el { width := some w }).width = w
      ∧ (applyUpdates el { height := some h }).height = h
      ∧ (applyUpdates el { rotation := some r }).rotation = r)
    ∧ (∀ (st : AppState K) (sid : Nat) (el : Element K) (v : Int),
        st.selectedId = some sid →
        st.elements.find? (fun e => e.id == sid) = some el →
          (propEdit st PropKey.w v).elements.find? (fun e => e.id == sid)
              = some { el with width := max ((CONFIG.MIN_SIZE : ℕ) : K) ((v : Int) : K) }
          ∧ (propEdit st PropKey.rot v).elements.find? (fun e => e.id == sid)
              = some { el with rotation := ((Int.tmod v 360 : Int) : K) }
          ∧ ((CONFIG.MIN_SIZE : ℕ) : K) ≤ max ((CONFIG.MIN_SIZE : ℕ) : K) ((v : Int) : K))
    ∧ (∀ (stR : AppState ℝ) (handle : String) (init elR : Element ℝ) (ex ey : ℝ),
        stR.resizeHandle = some handle → stR.initialElProps = some init →
        ∃ w h : ℝ, handleResize stR ex ey elR
            = some (updateElement stR elR.id { width := some w, height := some h })
          ∧ ((CONFIG.MIN_SIZE : ℕ) : ℝ) ≤ w ∧ ((CONFIG.MIN_SIZE : ℕ) : ℝ) ≤ h) := by
  refine ⟨fun el w h r => ⟨rfl, rfl, rfl⟩, ?_, ?_⟩
  · intro st sid el v hsel hfind
    refine ⟨?_, ?_, le_max_left _ _⟩
    · simp only [propEdit, hsel]
      rw [find?_updateElement, hfind]
      rfl
    · simp only [propEdit, hsel]
      rw [find?_updateElement, hfind]
      rfl
  · intro stR handle init elR ex ey hh hi
    unfold handleResize
    rw [hh, hi]
    exact ⟨_, _, rfl, le_max_left _ _, le_max_left _ _⟩

/-- Counterexample to claim C2 as stated: on the reachable one-rectangle scene,
`updateElement` with the update `{width: 5}` stores width 5, strictly below the
minimum size 20 — no clamping happens inside the merge. -/
theorem claim_C2_cex :
    ((updateElement (createElement (initialState ℚ) 1 Tool.rectangle 100 100) 1
        { width := some 5 }).elements.map (fun e => e.width) = [5])
    ∧ ¬ (((CONFIG.MIN_SIZE : ℕ) : ℚ) ≤ 5) := by
  refine ⟨by decide, by norm_num [CONFIG.MIN_SIZE]⟩

/-- Witness for claim C2: a width edit of -7 on the selected first rectangle
stores `max 20 (-7) = 20`, and the `"se"` resize session of `stW` stores
clamped dimensions. -/
theorem claim_C2_witness :
    ((propEdit (selectElement twoRects (some 1)) PropKey.w (-7)).elements.find?
        (fun e => e.id == 1)
      = some { twoRectsFst with width := max ((CONFIG.MIN_SIZE : ℕ) : ℚ) ((-7 : Int) : ℚ) })
    ∧ (∃ w h : ℝ, handleResize stW 30 20 elW
          = some (updateElement stW elW.id { width := some w, height := some h })
        ∧ ((CONFIG.MIN_SIZE : ℕ) : ℝ) ≤ w ∧ ((CONFIG.MIN_SIZE : ℕ) : ℝ) ≤ h) :=
  ⟨((claim_C2 (K := ℚ)).2.1 (selectElement twoRects (some 1)) 1 twoRectsFst (-7) rfl
      (by decide)).1,
   (claim_C2 (K := ℚ)).2.2 stW "se" elW elW 30 20 rfl rfl⟩

/-- Claim C3 (amended): after a rotation property-field edit of integer `v`
the stored rotation is the JavaScript remainder `v % 360` (`Int.tmod`), which
lies in `[0, 360)` exactly for `v ≥ 0` and in `(-360, 0]` for `v < 0`; a
rotating pointer-move stores the raw `atan2`-derived angle without any
normalisation — in particular a pointer one pixel up-left of the element's
center stores the negative rotation -45. -/
theorem claim_C3 {K : Type} [LinearOrderedField K] (st : AppState K) (sid : Nat)
    (el : Element K) (v : Int) (hsel : st.selectedId = some sid)
    (hfind : st.elements.find? (fun e => e.id == sid) = some el) :
    ((propEdit st PropKey.rot v).elements.find? (fun e => e.id == sid)
        = some { el with rotation := ((Int.tmod v 360 : Int) : K) })
    ∧ (0 ≤ v → 0 ≤ Int.tmod v 360 ∧ Int.tmod v 360 < 360)
    ∧ (v < 0 → -360 < Int.tmod v 360 ∧ Int.tmod v 360 ≤ 0)
    ∧ (∀ (stR : AppState ℝ) (elR : Element ℝ) (rl rt : ℝ),
        stR.elements.find? (fun e => e.id == elR.id) = some elR →
        (handleRotate stR rl rt (rl + elR.x + elR.width / 2 - 1)
            (rt + elR.y + elR.height / 2 - 1) elR).elements.find? (fun e => e.id == elR.id)
          = some { elR with rotation := -45 }) := by
  refine ⟨?_, ?_, ?_, ?_⟩
  · simp only [propEdit, hsel]
    rw [find?_updateElement, hfind]
    rfl
  · intro hv
    exact ⟨Int.tmod_nonneg _ hv, Int.tmod_lt_of_pos _ (by norm_num)⟩
  · intro hv
    have h0 : 0 ≤ -v := by omega
    have h1 : 0 ≤ (-v).tmod 360 := Int.tmod_nonneg _ h0
    have h2 : (-v).tmod 360 < 360 := Int.tmod_lt_of_pos _ (by norm_num)
    have h3 : Int.tmod v 360 = -((-v).tmod 360) := by
      conv_lhs => rw [show v = -(-v) by ring]
      rw [tmod_neg_left]
    omega
  · intro stR elR rl rt hf
    have e1 : rt + elR.y + elR.height / 2 - 1 - (rt + elR.y + elR.height / 2) = (-1 : ℝ) := by
      ring
    have e2 : rl + elR.x + elR.width / 2 - 1 - (rl + elR.x + elR.width / 2) = (-1 : ℝ) := by
      ring
    have h3 : atan2 (-1) (-1) = Real.pi / 4 - Real.pi := by
      unfold atan2
      rw [if_neg (by norm_num), if_neg (by norm_num), if_pos (by norm_num)]
      norm_num [Real.arctan_one]
    have h4 : (Real.pi / 4 - Real.pi) * (180 / Real.pi) + 90 = (-45 : ℝ) := by
      have hπ : Real.pi ≠ 0 := Real.pi_ne_zero
      field_simp
      ring
    unfold handleRotate
    rw [find?_updateElement, hf]
    simp only [Option.map_some', Option.some.injEq]
    rw [e1, e2, h3, h4]
    rfl

/-- Counterexample to claim C3 as stated: editing the rotation property field
to -90 on the selected first rectangle stores -90, which is not in [0, 360). -/
theorem claim_C3_cex :
    (propEdit (selectElement twoRects (some 1)) PropKey.rot (-90)).elements.find?
        (fun e => e.id == 1) = some { twoRectsFst with rotation := (-90 : ℚ) }
    ∧ ¬ ((0 : ℚ) ≤ -90 ∧ (-90 : ℚ) < 360) := by
  refine ⟨by decide, by norm_num⟩

/-- Witness for claim C3: a rotation edit of 45 stores `tmod 45 360` inside
[0, 360), and the up-left rotating pointer-move on `stW` stores -45. -/
theorem claim_C3_witness :
    ((propEdit (selectElement twoRects (some 1)) PropKey.rot 45).elements.find?
        (fun e => e.id == 1)
      = some { twoRectsFst with rotation := ((Int.tmod 45 360 : Int) : ℚ) })
    ∧ (0 ≤ Int.tmod 45 360 ∧ Int.tmod 45 360 < 360)
    ∧ (handleRotate stW 0 0 (0 + elW.x + elW.width / 2 - 1) (0 + elW.y + elW.height / 2 - 1)
        elW).elements.find? (fun e => e.id == elW.id) = some { elW with rotation := -45 } := by
  have h := claim_C3 (selectElement twoRects (some 1)) 1 twoRectsFst 45 rfl (by decide)
  exact ⟨h.1, h.2.1 (by norm_num), h.2.2.2 stW elW 0 0 rfl⟩

/-- Claim C5: from a `Resizing(handle)` session with snapshot `init`, a
pointer-move to `(ex, ey)` rotates the raw screen delta from the gesture
origin by `-rotation` degrees into `(localDx, localDy)` and stores, clamped
below by the minimum size 20: width = snapshot.width + localDx for handles
containing 'e' and snapshot.width - localDx for those containing 'w';
height = snapshot.height + localDy for 's' and snapshot.height - localDy for
'n' (combined handles apply both axes independently); the merged element keeps
the old `x` and `y` — no opposite-corner anchoring correction. -/
theorem claim_C5 (st : AppState ℝ) (el init : Element ℝ) (h : String) (ex ey : ℝ)
    (hinit : st.initialElProps = some init)
    (hhandle : st.resizeHandle = some h)
    (hh : h = "nw" ∨ h = "ne" ∨ h = "sw" ∨ h = "se")
    (hfind : st.elements.find? (fun e => e.id == el.id) = some el) :
    ∃ st', handleResize st ex ey el = some st'
      ∧ st'.elements.find? (fun e => e.id == el.id) = some
        { el with
          width := max ((CONFIG.MIN_SIZE : ℕ) : ℝ)
            (if strIncludes h 'e'
             then init.width + (rotateVector (ex - st.dragStart.x) (ey - st.dragStart.y)
                (-el.rotation)).1
             else init.width - (rotateVector (ex - st.dragStart.x) (ey - st.dragStart.y)
                (-el.rotation)).1)
          height := max ((CONFIG.MIN_SIZE : ℕ) : ℝ)
            (if strIncludes h 's'
             then init.height + (rotateVector (ex - st.dragStart.x) (ey - st.dragStart.y)
                (-el.rotation)).2
             else init.height - (rotateVector (ex - st.dragStart.x) (ey - st.dragStart.y)
                (-el.rotation)).2) } := by
  unfold handleResize
  rw [hhandle, hinit]
  refine ⟨_, rfl, ?_⟩
  rw [find?_updateElement, hfind]
  simp only [Option.map_some', Option.some.injEq]
  rcases hh with rfl | rfl | rfl | rfl
  · have he : strIncludes "nw" 'e' = false := by decide
    have hw : strIncludes "nw" 'w' = true := by decide
    have hs : strIncludes "nw" 's' = false := by decide
    have hn : strIncludes "nw" 'n' = true := by decide
    simp only [he, hw, hs, hn, Bool.false_eq_true, if_false, if_true, rotateVector]
    rfl
  · have he : strIncludes "ne" 'e' = true := by decide
    have hw : strIncludes "ne" 'w' = false := by decide
    have hs : strIncludes "ne" 's' = false := by decide
    have hn : strIncludes "ne" 'n' = true := by decide
    simp only [he, hw, hs, hn, Bool.false_eq_true, if_false, if_true, rotateVector]
    rfl
  · have he : strIncludes "sw" 'e' = false := by decide
    have hw : strIncludes "sw" 'w' = true := by decide
    have hs : strIncludes "sw" 's' = true := by decide
    have hn : strIncludes "sw" 'n' = false := by decide
    simp only [he, hw, hs, hn, Bool.false_eq_true, if_false, if_true, rotateVector]
    rfl
  · have he : strIncludes "se" 'e' = true := by decide
    have hw : strIncludes "se" 'w' = false := by decide
    have hs : strIncludes "se" 's' = true := by decide
    have hn : strIncludes "se" 'n' = false := by decide
    simp only [he, hw, hs, hn, Bool.false_eq_true, if_false, if_true, rotateVector]
    rfl

/-- Witness for claim C5: in the `"se"` session `stW` (rotation 0, snapshot
150×100), a pointer-move to (30, 20) resizes to 180×120 with position
unchanged. -/
theorem claim_C5_witness :
    ∃ (st' : AppState ℝ) (e' : Element ℝ), handleResize stW 30 20 elW = some st'
      ∧ st'.elements.find? (fun e => e.id == elW.id) = some e'
      ∧ e'.width = 180 ∧ e'.height = 120 ∧ e'.x = elW.x ∧ e'.y = elW.y := by
  obtain ⟨st', h1, h2⟩ := claim_C5 stW elW elW "se" 30 20 rfl rfl
    (Or.inr (Or.inr (Or.inr rfl))) rfl
  have he : strIncludes "se" 'e' = true := by decide
  have hs : strIncludes "se" 's' = true := by decide
  refine ⟨st', _, h1, h2, ?_, ?_, rfl, rfl⟩
  · show max ((CONFIG.MIN_SIZE : ℕ) : ℝ)
      (if strIncludes "se" 'e'
       then elW.width + (rotateVector (30 - stW.dragStart.x) (20 - stW.dragStart.y)
          (-elW.rotation)).1
       else elW.width - (rotateVector (30 - stW.dragStart.x) (20 - stW.dragStart.y)
          (-elW.rotation)).1) = 180
    rw [he]
    norm_num [rotateVector, stW, elW, CONFIG.MIN_SIZE, max_def]
  · show max ((CONFIG.MIN_SIZE : ℕ) : ℝ)
      (if strIncludes "se" 's'
       then elW.height + (rotateVector (30 - stW.dragStart.x) (20 - stW.dragStart.y)
          (-elW.rotation)).2
       else elW.height - (rotateVector (30 - stW.dragStart.x) (20 - stW.dragStart.y)
          (-elW.rotation)).2) = 120
    rw [hs]
    norm_num [rotateVector, stW, elW, CONFIG.MIN_SIZE, max_def]

/-- Claim C6: pointer-move handling is idempotent relative to the stored
session: whenever one move produced `st₁` from `st`, processing a further move
from `st₁` gives exactly the state that processing it directly from `st`
would — every move is recomputed from `dragStart`/`initialElProps`, never
accumulated; and a move with no selection, or with no active drag/resize/
rotate session, is a no-op. -/
theorem claim_C6 (st st₁ : AppState ℝ) (rl rt x₁ y₁ x₂ y₂ : ℝ)
    (h1 : onGlobalMouseMove st rl rt x₁ y₁ = some st₁) :
    onGlobalMouseMove st₁ rl rt x₂ y₂ = onGlobalMouseMove st rl rt x₂ y₂
    ∧ (st.selectedId = none → onGlobalMouseMove st rl rt x₂ y₂ = some st)
    ∧ (st.isDragging = false → st.isResizing = false → st.isRotating = false →
        onGlobalMouseMove st rl rt x₂ y₂ = some st) := by
  refine ⟨?_, ?_, ?_⟩
  · cases hsel : st.selectedId with
    | none =>
      simp only [onGlobalMouseMove, hsel] at h1
      injection h1 with h
      subst h
      rfl
    | some sid =>
      cases hfind : st.elements.find? (fun e => e.id == sid) with
      | none =>
        simp only [onGlobalMouseMove, hsel, hfind] at h1
        by_cases hb : (st.isDragging || st.isResizing || st.isRotating) = true
        · rw [if_pos hb] at h1
          cases h1
        · rw [if_neg hb] at h1
          injection h1 with h
          subst h
          rfl
      | some el =>
        have hid : el.id = sid := by simpa using List.find?_some hfind
        simp only [onGlobalMouseMove, hsel, hfind] at h1
        cases hd : st.isDragging with
        | true =>
          rw [if_pos hd] at h1
          cases hinit : st.initialElProps with
          | none =>
            rw [hinit] at h1
            cases h1
          | some init =>
            rw [hinit] at h1
            injection h1 with h
            subst h
            have hfind2 : ∀ u : Updates ℝ,
                (updateElement st el.id u).elements.find? (fun e => e.id == sid)
                  = some (applyUpdates el u) :=
              fun u => find?_updateElement_of_find st sid el u hid hfind
            simp only [onGlobalMouseMove, updateElement_selectedId, updateElement_isDragging,
              updateElement_initialElProps, updateElement_dragStart, applyUpdates_id,
              hsel, hfind, hfind2, hd, hinit, if_true]
            exact congrArg some (updateElement_updateElement st el.id _ _ (fun _ => rfl))
        | false =>
          rw [if_neg (by simp [hd])] at h1
          cases hr : st.isResizing with
          | true =>
            rw [if_pos hr] at h1
            -- h1 : handleResize st x₁ y₁ el = some st₁
            unfold handleResize at h1
            cases hhandle : st.resizeHandle with
            | none =>
              rw [hhandle] at h1
              cases hinit : st.initialElProps with
              | none => rw [hinit] at h1; cases h1
              | some init => rw [hinit] at h1; cases h1
            | some handle =>
              rw [hhandle] at h1
              cases hinit : st.initialElProps with
              | none => rw [hinit] at h1; cases h1
              | some init =>
                rw [hinit] at h1
                injection h1 with h
                subst h
                have hfind2 : ∀ u : Updates ℝ,
                    (updateElement st el.id u).elements.find? (fun e => e.id == sid)
                      = some (applyUpdates el u) :=
                  fun u => find?_updateElement_of_find st sid el u hid hfind
                simp only [onGlobalMouseMove, updateElement_selectedId,
                  updateElement_isDragging, updateElement_isResizing, applyUpdates_id,
                  hsel, hfind, hfind2, hd, hr, Bool.false_eq_true, if_false, if_true]
                exact resize_after_update st el _ _ x₂ y₂
          | false =>
            rw [if_neg (by simp [hr])] at h1
            cases ho : st.isRotating with
            | true =>
              rw [if_pos ho] at h1
              simp only [handleRotate] at h1
              injection h1 with h
              subst h
              have hfind2 : ∀ u : Updates ℝ,
                  (updateElement st el.id u).elements.find? (fun e => e.id == sid)
                    = some (applyUpdates el u) :=
                fun u => find?_updateElement_of_find st sid el u hid hfind
              simp only [onGlobalMouseMove, updateElement_selectedId,
                updateElement_isDragging, updateElement_isResizing, updateElement_isRotating,
                applyUpdates_id, hsel, hfind, hfind2, hd, hr, ho,
                Bool.false_eq_true, if_false, if_true]
              exact congrArg some (rotate_after_update st el _ rl rt x₂ y₂)
            | false =>
              rw [if_neg (by simp [ho])] at h1
              injection h1 with h
              subst h
              rfl
  · intro h
    simp [onGlobalMouseMove, h]
  · intro hd hr ho
    cases hsel : st.selectedId with
    | none => simp [onGlobalMouseMove, hsel]
    | some sid =>
      cases hfind : st.elements.find? (fun e => e.id == sid) with
      | none => simp [onGlobalMouseMove, hsel, hfind, hd, hr, ho]
      | some el => simp [onGlobalMouseMove, hsel, hfind, hd, hr, ho]

/-- Witness for claim C6: one dragging move of `stD` to (10, 5), then a second
move to (20, 20), lands in the same state as the second move alone. -/
theorem claim_C6_witness :
    ∃ st₁, onGlobalMouseMove stD 0 0 10 5 = some st₁
      ∧ onGlobalMouseMove st₁ 0 0 20 20 = onGlobalMouseMove stD 0 0 20 20 := by
  refine ⟨_, rfl, ?_⟩
  exact (claim_C6 stD _ 0 0 10 5 20 20 rfl).1

/-- Claim C1 (amended): starting from a scene whose zIndex multiset is {1..N},
`createElement` yields {1..N+1} and `reorder` (`moveLayer`) yields {1..N}
again; `deleteElement` preserves density when the deleted (selected, unique)
element is topmost (zIndex = N) — deleting a non-topmost element leaves a gap,
which no operation but a swapping reorder removes. -/
theorem claim_C1 {K : Type} [LinearOrderedField K] (st : AppState K) (newId : Nat)
    (type : Tool) (x y : K) (dir : Int) :
    (zDense st.elements → zDense (createElement st newId type x y).elements)
    ∧ (zDense st.elements → zDense (moveLayer st dir).elements)
    ∧ (∀ (sid : Nat) (el : Element K), st.selectedId = some sid →
        st.elements.find? (fun e => e.id == sid) = some el →
        st.elements.countP (fun e => e.id == sid) = 1 →
        el.zIndex = (st.elements.length : Int) →
        zDense st.elements → zDense (deleteSelected st).elements) := by
  refine ⟨?_, fun h => zDense_moveLayer st dir h, ?_⟩
  · intro h
    exact zDense_append_fresh st.elements _ rfl h
  · intro sid el hsel hfind hcount he h
    have hperm := perm_cons_filter_of_unique (fun e => e.id == sid) st.elements el hfind hcount
    have hlen : st.elements.length
        = (st.elements.filter (fun e => !(e.id == sid))).length + 1 := by
      simpa using hperm.length_eq
    simp only [deleteSelected, hsel]
    unfold zDense
    have hmap : List.Perm (st.elements.map (fun e => e.zIndex))
        (el.zIndex ::
          (st.elements.filter (fun e => !(e.id == sid))).map (fun e => e.zIndex)) := by
      simpa using hperm.map (fun e => e.zIndex)
    have hz : el.zIndex
        = 1 + ((st.elements.filter (fun e => !(e.id == sid))).length : Int) := by
      rw [he, hlen]
      push_cast
      ring
    have htar : List.Perm (rangeZ 1 st.elements.length)
        (el.zIndex :: rangeZ 1 (st.elements.filter (fun e => !(e.id == sid))).length) := by
      rw [hlen, rangeZ_succ, hz]
      exact List.perm_append_singleton _ _
    exact ((hmap.symm.trans h).trans htar).cons_inv

/-- Counterexample to claim C1 as stated: in the reachable two-rectangle scene,
deleting the selected bottom element (zIndex 1) leaves the other element with
zIndex 2, so the set of zIndex values after this `deleteElement` call is {2},
not {1}. -/
theorem claim_C1_cex :
    ¬ zDense ((deleteSelected (selectElement twoRects (some 1))).elements) := by
  decide

/-- Witness for claim C1 on the dense two-rectangle scene: creation, reorder
and topmost deletion all leave the zIndex multiset dense. -/
theorem claim_C1_witness :
    zDense (createElement twoRects 3 Tool.rectangle 200 200).elements
    ∧ zDense (moveLayer twoRects (-1)).elements
    ∧ zDense (deleteSelected twoRects).elements :=
  ⟨(claim_C1 twoRects 3 Tool.rectangle 200 200 (-1)).1 (by decide),
   (claim_C1 twoRects 3 Tool.rectangle 200 200 (-1)).2.1 (by decide),
   (claim_C1 twoRects 3 Tool.rectangle 200 200 (-1)).2.2 2 twoRectsSnd rfl (by decide)
     (by decide) (by decide) (by decide)⟩

/-- Claim C4 (amended): with a selection present, `moveLayer` with an
out-of-range target (already topmost for +1, bottommost for -1) leaves every
`zIndex` unchanged as a multiset — it returns before the renumbering, only
re-sorting the internal array — so gaps left by earlier deletions persist
through such a call; an in-range move swaps the element with its z-neighbour
and renumbers all zIndex densely to 1..N. On the spec's two-rectangle
scenario, reorder of the (re-selected) bottom element by -1 keeps
(id 1, z 1), (id 2, z 2), while reorder of the selected top element by -1
swaps them to (id 2, z 1), (id 1, z 2). -/
theorem claim_C4 {K : Type} [LinearOrderedField K] (st : AppState K)
    (sid idx0 currentPos : Nat) (dir : Int) (hsel : st.selectedId = some sid)
    (hidx : st.elements.findIdx? (fun e => e.id == sid) = some idx0)
    (hcur : (st.elements.insertionSort (fun a b => a.zIndex ≤ b.zIndex)).findIdx?
        (fun e => e.id == sid) = some currentPos) :
    (((currentPos : Int) + dir < 0 ∨ (st.elements.length : Int) ≤ (currentPos : Int) + dir) →
      List.Perm ((moveLayer st dir).elements.map (fun e => e.zIndex))
        (st.elements.map (fun e => e.zIndex)))
    ∧ ((0 ≤ (currentPos : Int) + dir ∧ (currentPos : Int) + dir < (st.elements.length : Int)) →
      (moveLayer st dir).elements.map (fun e => e.zIndex) = rangeZ 1 st.elements.length)
    ∧ ((moveLayer (selectElement twoRects (some 1)) (-1)).elements.map
        (fun e => (e.id, e.zIndex)) = [(1, 1), (2, 2)])
    ∧ ((moveLayer twoRects (-1)).elements.map (fun e => (e.id, e.zIndex))
        = [(2, 1), (1, 2)]) := by
  have hperm := List.perm_insertionSort (fun a b : Element K => a.zIndex ≤ b.zIndex) st.elements
  have hlen : (st.elements.insertionSort (fun a b => a.zIndex ≤ b.zIndex)).length
      = st.elements.length := hperm.length_eq
  refine ⟨?_, ?_, by decide, by decide⟩
  · intro hout
    simp only [moveLayer, hsel, hidx, hcur]
    rw [if_pos (by rw [hlen]; exact hout)]
    exact hperm.map _
  · intro hin
    simp only [moveLayer, hsel, hidx, hcur]
    rw [if_neg (by rw [hlen]; omega)]
    show (renumber _ 1).map (fun e => e.zIndex) = _
    rw [renumber_map_zIndex, swapAt_length, hlen]

/-- Counterexample to the claim-C4 assertion that re-densification runs on
every reorder call: in the reachable gapped scene (zIndex values {2, 3} after
a deletion), reordering the selected topmost element by +1 is clamped and
returns before any renumbering, so the gap survives this reorder call. -/
theorem claim_C4_cex :
    (gapState.elements.map (fun e => e.zIndex) = [2, 3])
    ∧ ¬ zDense ((moveLayer gapState 1).elements) := by
  exact ⟨by decide, by decide⟩

/-- Witness for claim C4 on the two-rectangle scene: moving the top element up
is clamped (zIndex multiset unchanged), moving it down renumbers to 1..2. -/
theorem claim_C4_witness :
    List.Perm ((moveLayer twoRects 1).elements.map (fun e => e.zIndex))
        (twoRects.elements.map (fun e => e.zIndex))
    ∧ (moveLayer twoRects (-1)).elements.map (fun e => e.zIndex)
        = rangeZ 1 twoRects.elements.length :=
  ⟨(claim_C4 twoRects 2 1 1 1 rfl (by decide) (by decide)).1 (by decide),
   (claim_C4 twoRects 2 1 1 (-1) rfl (by decide) (by decide)).2.1 (by decide)⟩

/-- Claim C8: when the rotating pointer sits directly above the element's
center (same screen x as the center, smaller screen y), the stored rotation is
exactly 0 (hence 0 modulo 360): `atan2` yields -π/2 there, converted to -90
degrees, plus the fixed +90 degree offset. -/
theorem claim_C8 (st : AppState ℝ) (el : Element ℝ) (rl rt px py : ℝ)
    (hfind : st.elements.find? (fun e => e.id == el.id) = some el)
    (hpx : px = rl + el.x + el.width / 2)
    (hpy : py < rt + el.y + el.height / 2) :
    (handleRotate st rl rt px py el).elements.find? (fun e => e.id == el.id)
      = some { el with rotation := 0 } := by
  have hy0 : py - (rt + el.y + el.height / 2) < 0 := by linarith
  have hx0 : px - (rl + el.x + el.width / 2) = 0 := by rw [hpx]; ring
  have h3 : atan2 (py - (rt + el.y + el.height / 2)) (px - (rl + el.x + el.width / 2))
      = -(Real.pi / 2) := by
    rw [hx0]
    unfold atan2
    rw [if_neg (lt_irrefl 0), if_neg (by simp), if_neg (by simp),
      if_neg (asymm hy0), if_pos hy0]
  have h4 : -(Real.pi / 2) * (180 / Real.pi) + 90 = (0 : ℝ) := by
    have hπ : Real.pi ≠ 0 := Real.pi_ne_zero
    field_simp
    ring
  unfold handleRotate
  rw [find?_updateElement, hfind]
  simp only [Option.map_some', Option.some.injEq]
  rw [h3, h4]
  rfl

/-- Witness for claim C8: the pointer at (175, 50) sits directly above the
center (175, 150) of `elW`, and the stored rotation is 0. -/
theorem claim_C8_witness :
    (175 : ℝ) = 0 + elW.x + elW.width / 2
    ∧ ((50 : ℝ) < 0 + elW.y + elW.height / 2)
    ∧ (handleRotate stW 0 0 175 50 elW).elements.find? (fun e => e.id == elW.id)
        = some { elW with rotation := 0 } := by
  have h1 : (175 : ℝ) = 0 + elW.x + elW.width / 2 := by norm_num [elW]
  have h2 : (50 : ℝ) < 0 + elW.y + elW.height / 2 := by norm_num [elW]
  exact ⟨h1, h2, claim_C8 stW elW 0 0 175 50 rfl h1 h2⟩

/-- Claim C10: `createElement` keeps a passed coordinate only when it is
truthy: a coordinate equal to 0 becomes the default 100, any nonzero
coordinate is stored as passed; consequently a rectangle-tool creation click
exactly half a default width from the artboard's left edge (computed artboard
x = 0) places the element at x = 100. -/
theorem claim_C10 {K : Type} [LinearOrderedField K] (st : AppState K) (newId : Nat)
    (type : Tool) (x y : K) :
    (∃ el : Element K, ((createElement st newId type 0 y).elements).getLast? = some el
      ∧ el.x = 100 ∧ el.y = (if y = 0 then (100 : K) else y))
    ∧ (x ≠ 0 → ∃ el : Element K,
        ((createElement st newId type x y).elements).getLast? = some el ∧ el.x = x)
    ∧ (∀ (s : AppState K), s.activeTool = Tool.rectangle → ∀ (id₂ : Nat) (cy rl rt : K),
        ∃ el : Element K,
          ((creationClick s id₂ (rl + (CONFIG.DEFAULT_RECT_W : K) / 2) cy rl rt).elements).getLast?
            = some el ∧ el.x = 100) := by
  refine ⟨⟨_, List.getLast?_concat _, ?_, rfl⟩, ?_, ?_⟩
  · simp
  · intro hx
    exact ⟨_, List.getLast?_concat _, by simp [hx]⟩
  · intro s hra id₂ cy rl rt
    refine ⟨_, List.getLast?_concat _, ?_⟩
    show (if (rl + (CONFIG.DEFAULT_RECT_W : K) / 2 - rl -
        (if s.activeTool = Tool.text then 0 else (CONFIG.DEFAULT_RECT_W : K) / 2)) = 0
      then (100 : K) else _) = 100
    rw [hra, if_neg (show ¬ Tool.rectangle = Tool.text by decide),
      if_pos (show rl + (CONFIG.DEFAULT_RECT_W : K) / 2 - rl - (CONFIG.DEFAULT_RECT_W : K) / 2
        = 0 by ring)]

/-- Witness for claim C10: creating at x = 7 keeps x = 7, and the rectangle
creation click at `clientX = rectLeft + 75` lands at x = 100. -/
theorem claim_C10_witness :
    ((7 : ℚ) ≠ 0)
    ∧ (∃ el : Element ℚ,
        ((createElement (initialState ℚ) 1 Tool.rectangle 7 8).elements).getLast? = some el
          ∧ el.x = 7)
    ∧ (∃ el : Element ℚ,
        ((creationClick (setTool (initialState ℚ) Tool.rectangle) 2
            ((0 : ℚ) + (CONFIG.DEFAULT_RECT_W : ℚ) / 2) 300 0 0).elements).getLast? = some el
          ∧ el.x = 100) :=
  ⟨by norm_num,
   (claim_C10 (initialState ℚ) 1 Tool.rectangle 7 8).2.1 (by norm_num),
   (claim_C10 (initialState ℚ) 1 Tool.rectangle 7 8).2.2
     (setTool (initialState ℚ) Tool.rectangle) rfl 2 300 0 0⟩

end Studio
